import Mathlib

/-!
Verification of the AccuWeather MCP server against its specification.

The development shallowly embeds the two source files:
  src/src/accuweather-client.ts  (class AccuWeatherClient)
  src/unnamed/part_000           (MCP tool handlers, response shaping)

JavaScript numbers are modelled by `JSNum` (NaN, the two infinities, or a
finite rational) with the JavaScript comparison semantics, because the
validation code in the client compares with `<` and `>` and checks `isNaN`.
Each outbound HTTP call is modelled by an `Upstream` record holding the
latency, status, status text, body text and parsed body the provider would
answer with; the client functions take these as environment arguments and
return, together with the result, the list of requests they issued, so that
claims of the form "issues no network call" are expressible.
-/

/-- Model of a JavaScript number: NaN, an infinity, or a finite rational. -/
inductive JSNum where
  | nan
  | posInf
  | negInf
  | num (q : ℚ)
deriving DecidableEq

namespace JSNum

/-- JavaScript ordering `a < b`: any comparison with NaN is false. -/
def lt : JSNum → JSNum → Bool
  | nan, _ => false
  | _, nan => false
  | negInf, negInf => false
  | negInf, _ => true
  | _, negInf => false
  | posInf, _ => false
  | num _, posInf => true
  | num a, num b => decide (a < b)

/-- The `isNaN` test. -/
def isNaN : JSNum → Bool
  | nan => true
  | _ => false

/-- The `Number.isFinite` test. -/
def isFinite : JSNum → Bool
  | num _ => true
  | _ => false

/-- The `Number.isInteger` test. -/
def isInteger : JSNum → Bool
  | num q => q.den == 1
  | _ => false

/-- JavaScript truncation toward zero of a finite number. -/
def trunc (q : ℚ) : ℤ :=
  if q < 0 then -(⌊-q⌋) else ⌊q⌋

end JSNum

/-- Model of `Array.prototype.slice(0, days)` with a JavaScript number as the
end index: ToIntegerOrInfinity maps NaN to 0 and truncates toward zero; a
negative end index counts from the end of the array. -/
def jsSlice {α : Type} (days : JSNum) (l : List α) : List α :=
  match days with
  | .nan => []
  | .negInf => []
  | .posInf => l
  | .num q =>
      let t := JSNum.trunc q
      if t < 0 then l.take (l.length - (-t).toNat) else l.take t.toNat

/-- Value with a unit, as in the Temperature and Wind payload fields. -/
structure MetricValue where
  value : ℚ
  unit : String
deriving DecidableEq

/-- Interface AccuWeatherLocation of accuweather-client.ts. -/
structure AccuWeatherLocation where
  key : String
  localizedName : String
  countryId : String
  countryLocalizedName : String
  adminAreaId : String
  adminAreaLocalizedName : String
deriving DecidableEq

/-- Day part of interface AccuWeatherForecast. -/
structure ForecastDayPart where
  icon : ℤ
  iconPhrase : String
  precipitationProbability : ℚ
  windSpeed : MetricValue
deriving DecidableEq

/-- Night part of interface AccuWeatherForecast. -/
structure ForecastNightPart where
  icon : ℤ
  iconPhrase : String
  precipitationProbability : ℚ
deriving DecidableEq

/-- Interface AccuWeatherForecast of accuweather-client.ts: one entry of the
DailyForecasts array. -/
structure AccuWeatherForecast where
  date : String
  temperatureMinimum : MetricValue
  temperatureMaximum : MetricValue
  day : ForecastDayPart
  night : ForecastNightPart
deriving DecidableEq

/-- Interface AccuWeatherCurrentConditions of accuweather-client.ts.
PrecipitationType is optional in the source; `some ""` models a present but
empty string, which JavaScript treats as falsy. -/
structure AccuWeatherCurrentConditions where
  localObservationDateTime : String
  temperatureMetric : MetricValue
  temperatureImperial : MetricValue
  weatherText : String
  weatherIcon : ℤ
  relativeHumidity : ℚ
  windSpeedMetric : MetricValue
  windDirectionDegrees : ℚ
  windDirectionLocalized : String
  precipitationType : Option String
  hasPrecipitation : Bool
deriving DecidableEq

/-- One provider answer for a single outbound call: how long the provider
takes, the HTTP status, the status text, the raw body text used in error
messages, and the parsed body. -/
structure Upstream (β : Type) where
  latencyMs : ℕ
  status : ℕ
  statusText : String
  bodyText : String
  body : β
deriving DecidableEq

/-- The node-fetch `response.ok` test: status in [200, 300). -/
def statusOk (status : ℕ) : Bool :=
  200 ≤ status && status < 300

/-- The `errorText || response.statusText` expression of the error branches:
an empty body text is falsy, so the status text is used instead. -/
def errText {β : Type} (u : Upstream β) : String :=
  if u.bodyText = "" then u.statusText else u.bodyText

/-- Record of an outbound HTTP request, by endpoint and parameters. -/
inductive Request where
  | geoSearch (lat lon : JSNum)
  | currentConditions (key : String)
  | dailyForecast (days : JSNum) (key : String)
  | locationDetails (key : String)
deriving DecidableEq

/-- Error taxonomy of the client, one constructor per distinct throw shape in
accuweather-client.ts:
invalidArgument for the pre-network validation throws, upstreamTimeout for
the AbortError branch, upstreamError for the non-ok-status throws carrying
the status and body or status text, upstreamProtocolError for ok responses
with a missing expected field, and locationDetailsError for the distinct
"Failed to get location details" throw inside getWeatherForecast. -/
inductive ClientError where
  | invalidArgument (msg : String)
  | upstreamTimeout
  | upstreamError (status : ℕ) (text : String)
  | upstreamProtocolError (msg : String)
  | locationDetailsError (status : ℕ)
deriving DecidableEq

/-- AccuWeatherClient.getLocationKey. Validates latitude and longitude with
the JavaScript comparisons (isNaN, < -90, > 90, < -180, > 180) before any
request; then issues the geoposition-search request with a 30s abort timer;
a non-ok status raises upstreamError; an ok response whose Key field is
absent or empty (both falsy under !data.Key) raises upstreamProtocolError;
otherwise the key is returned. The second component lists the requests
issued. -/
def getLocationKey (env : Upstream (Option String)) (lat lon : JSNum) :
    Except ClientError String × List Request :=
  if lat.isNaN || lat.lt (.num (-90)) || (JSNum.num 90).lt lat then
    (.error (.invalidArgument "Invalid latitude"), [])
  else if lon.isNaN || lon.lt (.num (-180)) || (JSNum.num 180).lt lon then
    (.error (.invalidArgument "Invalid longitude"), [])
  else
    let req := Request.geoSearch lat lon
    if env.latencyMs > 30000 then
      (.error .upstreamTimeout, [req])
    else if !statusOk env.status then
      (.error (.upstreamError env.status (errText env)), [req])
    else
      match env.body with
      | none => (.error (.upstreamProtocolError "Invalid API response: missing location key"), [req])
      | some k =>
          if k = "" then
            (.error (.upstreamProtocolError "Invalid API response: missing location key"), [req])
          else
            (.ok k, [req])

/-- AccuWeatherClient.getCurrentConditions. An empty location key is rejected
before any request; then the current-conditions request is issued with a 30s
abort timer; non-ok status raises upstreamError; an ok response whose body is
not an array (modelled by none) or is an empty array raises
upstreamProtocolError; otherwise the first element is returned. -/
def getCurrentConditions (env : Upstream (Option (List AccuWeatherCurrentConditions)))
    (locationKey : String) :
    Except ClientError AccuWeatherCurrentConditions × List Request :=
  if locationKey = "" then
    (.error (.invalidArgument "Invalid location key"), [])
  else
    let req := Request.currentConditions locationKey
    if env.latencyMs > 30000 then
      (.error .upstreamTimeout, [req])
    else if !statusOk env.status then
      (.error (.upstreamError env.status (errText env)), [req])
    else
      match env.body with
      | none => (.error (.upstreamProtocolError "Invalid API response: missing current conditions"), [req])
      | some [] => (.error (.upstreamProtocolError "Invalid API response: missing current conditions"), [req])
      | some (c :: _) => (.ok c, [req])

/-- AccuWeatherClient.getForecast. An empty location key is rejected, then
days is validated by the JavaScript comparisons days < 1 and days > 15 only
(no isNaN and no integrality check appears in the source); then the daily
forecast request is issued with a 30s abort timer; non-ok status raises
upstreamError; an ok response without a DailyForecasts array (none) raises
upstreamProtocolError; otherwise DailyForecasts.slice(0, days) is returned. -/
def getForecast (env : Upstream (Option (List AccuWeatherForecast)))
    (locationKey : String) (days : JSNum) :
    Except ClientError (List AccuWeatherForecast) × List Request :=
  if locationKey = "" then
    (.error (.invalidArgument "Invalid location key"), [])
  else if days.lt (.num 1) || (JSNum.num 15).lt days then
    (.error (.invalidArgument "Invalid number of days. Must be between 1 and 15."), [])
  else
    let req := Request.dailyForecast days locationKey
    if env.latencyMs > 30000 then
      (.error .upstreamTimeout, [req])
    else if !statusOk env.status then
      (.error (.upstreamError env.status (errText env)), [req])
    else
      match env.body with
      | none => (.error (.upstreamProtocolError "Invalid API response: missing daily forecasts"), [req])
      | some l => (.ok (jsSlice days l), [req])

/-- Result record of AccuWeatherClient.getWeatherForecast. -/
structure ForecastBundle where
  location : AccuWeatherLocation
  current : AccuWeatherCurrentConditions
  forecast : List AccuWeatherForecast
deriving DecidableEq

/-- Provider answers for the four outbound calls of getWeatherForecast: the
geoposition search, the current-conditions call, the daily-forecast call, and
the location-details call. The details body has no shape check in the source
(the response is cast directly), so it is a plain AccuWeatherLocation. -/
structure FullEnv where
  geo : Upstream (Option String)
  current : Upstream (Option (List AccuWeatherCurrentConditions))
  forecast : Upstream (Option (List AccuWeatherForecast))
  details : Upstream AccuWeatherLocation
deriving DecidableEq

/-- AccuWeatherClient.getWeatherForecast. Resolves the location key, then
(via Promise.all) fetches current conditions and the forecast, then fetches
location details. The details fetch in the source has no AbortController and
no timeout, so its latency is never consulted: only its status is checked
(raising the distinct locationDetailsError on a non-ok status). Any earlier
failure propagates before the details request is issued. -/
def getWeatherForecast (env : FullEnv) (lat lon : JSNum) (days : JSNum) :
    Except ClientError ForecastBundle × List Request :=
  let geoR := getLocationKey env.geo lat lon
  match geoR.fst with
  | .error e => (.error e, geoR.snd)
  | .ok key =>
      let curR := getCurrentConditions env.current key
      let fcR := getForecast env.forecast key days
      let reqs2 := geoR.snd ++ curR.snd ++ fcR.snd
      match curR.fst, fcR.fst with
      | .error e, _ => (.error e, reqs2)
      | .ok _, .error e => (.error e, reqs2)
      | .ok current, .ok forecast =>
          let reqs3 := reqs2 ++ [Request.locationDetails key]
          if !statusOk env.details.status then
            (.error (.locationDetailsError env.details.status), reqs3)
          else
            (.ok { location := env.details.body, current := current, forecast := forecast }, reqs3)

/-- The expression day.Date.split(chr)[0] of the forecast handler: the prefix
of the string before its first occurrence of the character T (the whole
string when T does not occur, as split returns the string itself). -/
def dateOnly (s : String) : String :=
  String.mk (s.data.takeWhile (fun c => c ≠ 'T'))

/-- One entry of the forecast array built by the get_accuweather_weather_forecast
handler (the data.forecast.map callback in part_000). -/
structure ShapedForecastEntry where
  date : String
  maxTemp : ℚ
  minTemp : ℚ
  tempUnit : String
  dayConditions : String
  dayPrecipitationProbability : ℚ
  nightConditions : String
  nightPrecipitationProbability : ℚ
  windSpeed : ℚ
  windUnit : String
deriving DecidableEq

/-- The map callback of the forecast handler. -/
def shapeForecastEntry (day : AccuWeatherForecast) : ShapedForecastEntry :=
  { date := dateOnly day.date
  , maxTemp := day.temperatureMaximum.value
  , minTemp := day.temperatureMinimum.value
  , tempUnit := day.temperatureMaximum.unit
  , dayConditions := day.day.iconPhrase
  , dayPrecipitationProbability := day.day.precipitationProbability
  , nightConditions := day.night.iconPhrase
  , nightPrecipitationProbability := day.night.precipitationProbability
  , windSpeed := day.day.windSpeed.value
  , windUnit := day.day.windSpeed.unit }

/-- Location block of the forecast response document. -/
structure ShapedLocation where
  latitude : JSNum
  longitude : JSNum
  name : String
  country : String
  region : String
deriving DecidableEq

/-- Current block of the forecast response document. -/
structure ShapedCurrent where
  temperature : ℚ
  tempUnit : String
  conditions : String
  humidity : ℚ
  windSpeed : ℚ
  windUnit : String
  windDirection : String
deriving DecidableEq

/-- Period block of the forecast response document. -/
structure ShapedPeriod where
  days : JSNum
  startDate : String
  endDate : String
deriving DecidableEq

/-- The response document of the get_accuweather_weather_forecast handler. -/
structure ForecastResponse where
  location : ShapedLocation
  current : ShapedCurrent
  period : ShapedPeriod
  forecast : List ShapedForecastEntry
  dataSource : String
deriving DecidableEq

/-- Response shaping of the get_accuweather_weather_forecast handler
(part_000, the block building the response constant from data): maps each
forecast entry through the callback, then builds the document whose period
reads forecast[0].date and forecast[forecast.length - 1].date. On an empty
forecast array those element accesses are undefined (a TypeError at run
time), modelled by none. -/
def shapeForecastResponse (lat lon days : JSNum) (data : ForecastBundle) :
    Option ForecastResponse :=
  let forecast := data.forecast.map shapeForecastEntry
  if h : forecast = [] then
    none
  else
    some
      { location :=
          { latitude := lat
          , longitude := lon
          , name := data.location.localizedName
          , country := data.location.countryLocalizedName
          , region := data.location.adminAreaLocalizedName }
      , current :=
          { temperature := data.current.temperatureMetric.value
          , tempUnit := data.current.temperatureMetric.unit
          , conditions := data.current.weatherText
          , humidity := data.current.relativeHumidity
          , windSpeed := data.current.windSpeedMetric.value
          , windUnit := data.current.windSpeedMetric.unit
          , windDirection := data.current.windDirectionLocalized }
      , period :=
          { days := days
          , startDate := (forecast.head h).date
          , endDate := (forecast.getLast h).date }
      , forecast := forecast
      , dataSource := "AccuWeather API" }

/-- The expression current.PrecipitationType || str of the current-conditions
handler: undefined and the empty string are both falsy in JavaScript, so both
fall back to the literal none string. -/
def jsStringOrDefault (v : Option String) (dflt : String) : String :=
  match v with
  | none => dflt
  | some s => if s = "" then dflt else s

/-- Current block of the current-conditions response document. -/
structure ShapedCurrentConditions where
  temperature : ℚ
  tempUnit : String
  conditions : String
  humidity : ℚ
  windSpeed : ℚ
  windUnit : String
  windDirection : String
  hasPrecipitation : Bool
  precipitationType : String
deriving DecidableEq

/-- The response document of the get_accuweather_current_conditions handler. -/
structure CurrentConditionsResponse where
  latitude : JSNum
  longitude : JSNum
  current : ShapedCurrentConditions
  dataSource : String
deriving DecidableEq

/-- Response shaping of the get_accuweather_current_conditions handler
(part_000, the block building the response constant from current). -/
def shapeCurrentConditionsResponse (lat lon : JSNum)
    (current : AccuWeatherCurrentConditions) : CurrentConditionsResponse :=
  { latitude := lat
  , longitude := lon
  , current :=
      { temperature := current.temperatureMetric.value
      , tempUnit := current.temperatureMetric.unit
      , conditions := current.weatherText
      , humidity := current.relativeHumidity
      , windSpeed := current.windSpeedMetric.value
      , windUnit := current.windSpeedMetric.unit
      , windDirection := current.windDirectionLocalized
      , hasPrecipitation := current.hasPrecipitation
      , precipitationType := jsStringOrDefault current.precipitationType "none" }
  , dataSource := "AccuWeather API" }

/-- Spec predicate: the latitude is a finite number in [-90, 90]. -/
def latInRange (x : JSNum) : Bool :=
  match x with
  | .num q => decide (-90 ≤ q) && decide (q ≤ 90)
  | _ => false

/-- Spec predicate: the longitude is a finite number in [-180, 180]. -/
def lonInRange (x : JSNum) : Bool :=
  match x with
  | .num q => decide (-180 ≤ q) && decide (q ≤ 180)
  | _ => false

lemma latCheck_false_of_latInRange (x : JSNum) (h : latInRange x = true) :
    (x.isNaN || x.lt (.num (-90)) || (JSNum.num 90).lt x) = false := by
  cases x with
  | nan => simp [latInRange] at h
  | posInf => simp [latInRange] at h
  | negInf => simp [latInRange] at h
  | num q =>
      simp only [latInRange, Bool.and_eq_true, decide_eq_true_eq] at h
      simp only [JSNum.isNaN, JSNum.lt, Bool.or_eq_false_iff, decide_eq_false_iff_not, not_lt]
      exact ⟨⟨trivial, h.1⟩, h.2⟩

lemma lonCheck_false_of_lonInRange (x : JSNum) (h : lonInRange x = true) :
    (x.isNaN || x.lt (.num (-180)) || (JSNum.num 180).lt x) = false := by
  cases x with
  | nan => simp [lonInRange] at h
  | posInf => simp [lonInRange] at h
  | negInf => simp [lonInRange] at h
  | num q =>
      simp only [lonInRange, Bool.and_eq_true, decide_eq_true_eq] at h
      simp only [JSNum.isNaN, JSNum.lt, Bool.or_eq_false_iff, decide_eq_false_iff_not, not_lt]
      exact ⟨⟨trivial, h.1⟩, h.2⟩

lemma daysCheck_false_of_natRange (n : ℕ) (h1 : 1 ≤ n) (h15 : n ≤ 15) :
    ((JSNum.num (n : ℚ)).lt (.num 1) || (JSNum.num 15).lt (.num (n : ℚ))) = false := by
  simp only [JSNum.lt, Bool.or_eq_false_iff, decide_eq_false_iff_not, not_lt]
  constructor
  · exact_mod_cast h1
  · exact_mod_cast h15

lemma jsSlice_natCast {α : Type} (n : ℕ) (l : List α) :
    jsSlice (.num (n : ℚ)) l = l.take n := by
  have hnn : ¬ ((n : ℚ) < 0) := by exact_mod_cast Nat.not_lt_zero n
  have hfl : ⌊(n : ℚ)⌋ = (n : ℤ) := Int.floor_natCast n
  simp only [jsSlice, JSNum.trunc, if_neg hnn, hfl]
  have hnneg : ¬ ((n : ℤ) < 0) := by exact_mod_cast Nat.not_lt_zero n
  rw [if_neg hnneg, Int.toNat_natCast]

/-- Sample current conditions as the provider reports them, PrecipitationType
absent. -/
def sampleConditions : AccuWeatherCurrentConditions :=
  { localObservationDateTime := "2025-11-05T09:10:00+03:00"
  , temperatureMetric := { value := 22, unit := "C" }
  , temperatureImperial := { value := 72, unit := "F" }
  , weatherText := "Partly sunny"
  , weatherIcon := 3
  , relativeHumidity := 60
  , windSpeedMetric := { value := 14, unit := "km/h" }
  , windDirectionDegrees := 90
  , windDirectionLocalized := "E"
  , precipitationType := none
  , hasPrecipitation := false }

/-- Sample daily forecast entry with a given Date string. -/
def sampleEntry (d : String) : AccuWeatherForecast :=
  { date := d
  , temperatureMinimum := { value := 14, unit := "C" }
  , temperatureMaximum := { value := 25, unit := "C" }
  , day :=
      { icon := 3
      , iconPhrase := "Partly sunny"
      , precipitationProbability := 20
      , windSpeed := { value := 15, unit := "km/h" } }
  , night :=
      { icon := 34
      , iconPhrase := "Mostly clear"
      , precipitationProbability := 5 } }

/-- Sample provider location details for the resolved key. -/
def sampleLocation : AccuWeatherLocation :=
  { key := "224758"
  , localizedName := "Nairobi"
  , countryId := "KE"
  , countryLocalizedName := "Kenya"
  , adminAreaId := "30"
  , adminAreaLocalizedName := "Nairobi Area" }

/-- Healthy geoposition-search answer. -/
def okGeoEnv : Upstream (Option String) :=
  { latencyMs := 120, status := 200, statusText := "OK", bodyText := "", body := some "224758" }

/-- Healthy current-conditions answer with one element. -/
def okCurrentEnv : Upstream (Option (List AccuWeatherCurrentConditions)) :=
  { latencyMs := 130, status := 200, statusText := "OK", bodyText := "", body := some [sampleConditions] }

/-- Healthy daily-forecast answer with the given entries. -/
def okForecastEnv (l : List AccuWeatherForecast) : Upstream (Option (List AccuWeatherForecast)) :=
  { latencyMs := 140, status := 200, statusText := "OK", bodyText := "", body := some l }

/-- Healthy location-details answer with the given latency. -/
def okDetailsEnv (latency : ℕ) : Upstream AccuWeatherLocation :=
  { latencyMs := latency, status := 200, statusText := "OK", bodyText := "", body := sampleLocation }

/-- The five consecutive dates of the specification scenario. -/
def fiveDayList : List AccuWeatherForecast :=
  [ sampleEntry "2025-11-05T07:00:00+03:00"
  , sampleEntry "2025-11-06T07:00:00+03:00"
  , sampleEntry "2025-11-07T07:00:00+03:00"
  , sampleEntry "2025-11-08T07:00:00+03:00"
  , sampleEntry "2025-11-09T07:00:00+03:00" ]

/-- Latitude of the specification scenario coordinate, -1.2864 = -804/625. -/
def lat0 : JSNum := .num ⟨-804, 625, by decide, by decide⟩

/-- Longitude of the specification scenario coordinate, 36.8172 = 92043/2500. -/
def lon0 : JSNum := .num ⟨92043, 2500, by decide, by decide⟩

/-- The rational 5/2, a non-integral day count inside [1, 15]. -/
def q52 : ℚ := ⟨5, 2, by decide, by decide⟩

lemma latCheck_true_of_not_latInRange (x : JSNum) (h : latInRange x = false) :
    (x.isNaN || x.lt (.num (-90)) || (JSNum.num 90).lt x) = true := by
  cases x with
  | nan => rfl
  | posInf => rfl
  | negInf => rfl
  | num q =>
      simp only [latInRange, Bool.and_eq_false_iff, decide_eq_false_iff_not, not_le] at h
      simp only [JSNum.isNaN, JSNum.lt, Bool.or_eq_true, decide_eq_true_eq]
      rcases h with h | h
      · exact Or.inl (Or.inr h)
      · exact Or.inr h

lemma lonCheck_true_of_not_lonInRange (x : JSNum) (h : lonInRange x = false) :
    (x.isNaN || x.lt (.num (-180)) || (JSNum.num 180).lt x) = true := by
  cases x with
  | nan => rfl
  | posInf => rfl
  | negInf => rfl
  | num q =>
      simp only [lonInRange, Bool.and_eq_false_iff, decide_eq_false_iff_not, not_le] at h
      simp only [JSNum.isNaN, JSNum.lt, Bool.or_eq_true, decide_eq_true_eq]
      rcases h with h | h
      · exact Or.inl (Or.inr h)
      · exact Or.inr h

lemma takeWhile_append_head (d t : List Char) (hd : 'T' ∉ d) :
    (d ++ 'T' :: t).takeWhile (fun c => c ≠ 'T') = d := by
  induction d with
  | nil => simp [List.takeWhile]
  | cons a as ih =>
      simp only [List.mem_cons, not_or] at hd
      have ha : a ≠ 'T' := fun hc => hd.1 hc.symm
      simp [List.takeWhile_cons, ha]
      simpa using ih hd.2

lemma dateOnly_strips_time (d t : String) (hd : 'T' ∉ d.data) :
    dateOnly (d ++ "T" ++ t) = d := by
  unfold dateOnly
  have hdata : (d ++ "T" ++ t).data = d.data ++ 'T' :: t.data := by
    rw [String.data_append, String.data_append]
    have hT : "T".data = ['T'] := by decide
    rw [hT, List.append_assoc]
    rfl
  rw [hdata, takeWhile_append_head d.data t.data hd]

/-- C4: for every valid locationKey and integral dayCount N in [1,15], and
every successful provider response whose DailyForecasts list has more than N
entries, getForecast returns exactly the first N entries, hence never more
than N. -/
theorem C4_forecast_truncated_to_dayCount
    (env : Upstream (Option (List AccuWeatherForecast))) (key : String)
    (n : ℕ) (l : List AccuWeatherForecast)
    (hkey : key ≠ "") (h1 : 1 ≤ n) (h15 : n ≤ 15)
    (hb : env.body = some l) (hlat : env.latencyMs ≤ 30000)
    (hst : statusOk env.status = true) (hlen : n < l.length) :
    (getForecast env key (.num (n : ℚ))).fst = .ok (l.take n) ∧
    (l.take n).length = n := by
  have hd := daysCheck_false_of_natRange n h1 h15
  have hnl : ¬ (env.latencyMs > 30000) := by omega
  refine ⟨?_, ?_⟩
  · simp [getForecast, hkey, hd, hnl, hst, hb, jsSlice_natCast]
  · simp only [List.length_take]
    omega

theorem C4_witness :
    (getForecast (okForecastEnv (fiveDayList ++ fiveDayList)) "224758" (.num ((5 : ℕ) : ℚ))).fst =
      .ok ((fiveDayList ++ fiveDayList).take 5) ∧
    ((fiveDayList ++ fiveDayList).take 5).length = 5 :=
  C4_forecast_truncated_to_dayCount (okForecastEnv (fiveDayList ++ fiveDayList)) "224758" 5
    (fiveDayList ++ fiveDayList) (by decide) (by decide) (by decide) rfl (by decide) (by decide)
    (by decide)

/-- C5: a coordinate whose latitude is not a finite number in [-90, 90] or
whose longitude is not a finite number in [-180, 180] makes getLocationKey
fail with an invalid-argument error and issue no request. -/
theorem C5_invalid_coordinate_rejected (env : Upstream (Option String)) (lat lon : JSNum)
    (h : latInRange lat = false ∨ lonInRange lon = false) :
    (∃ msg, (getLocationKey env lat lon).fst = .error (.invalidArgument msg)) ∧
    (getLocationKey env lat lon).snd = [] := by
  rcases h with h | h
  · have hc := latCheck_true_of_not_latInRange lat h
    refine ⟨⟨"Invalid latitude", ?_⟩, ?_⟩ <;> simp [getLocationKey, hc]
  · cases hl : (lat.isNaN || lat.lt (.num (-90)) || (JSNum.num 90).lt lat) with
    | true => refine ⟨⟨"Invalid latitude", ?_⟩, ?_⟩ <;> simp [getLocationKey, hl]
    | false =>
        have hc := lonCheck_true_of_not_lonInRange lon h
        refine ⟨⟨"Invalid longitude", ?_⟩, ?_⟩ <;> simp [getLocationKey, hl, hc]

theorem C5_witness :
    (latInRange (.num 91) = false) ∧
    (∃ msg, (getLocationKey okGeoEnv (.num 91) lon0).fst = .error (.invalidArgument msg)) ∧
    (getLocationKey okGeoEnv (.num 91) lon0).snd = [] :=
  ⟨by decide,
   (C5_invalid_coordinate_rejected okGeoEnv (.num 91) lon0 (Or.inl (by decide))).1,
   (C5_invalid_coordinate_rejected okGeoEnv (.num 91) lon0 (Or.inl (by decide))).2⟩

/-- C6: for a non-empty locationKey and a timely HTTP-success response,
getCurrentConditions fails with the protocol error when the conditions array
is absent or empty, and returns the first element when it is non-empty. -/
theorem C6_conditions_first_or_protocol_error
    (env : Upstream (Option (List AccuWeatherCurrentConditions))) (key : String)
    (hkey : key ≠ "") (hlat : env.latencyMs ≤ 30000) (hst : statusOk env.status = true) :
    ((env.body = none ∨ env.body = some []) →
      (getCurrentConditions env key).fst =
        .error (.upstreamProtocolError "Invalid API response: missing current conditions")) ∧
    (∀ c rest, env.body = some (c :: rest) → (getCurrentConditions env key).fst = .ok c) := by
  have hnl : ¬ (env.latencyMs > 30000) := by omega
  constructor
  · rintro (hb | hb) <;> simp [getCurrentConditions, hkey, hnl, hst, hb]
  · intro c rest hb
    simp [getCurrentConditions, hkey, hnl, hst, hb]

theorem C6_witness :
    (getCurrentConditions okCurrentEnv "224758").fst = .ok sampleConditions ∧
    (getCurrentConditions
        { okCurrentEnv with body := some [] } "224758").fst =
      .error (.upstreamProtocolError "Invalid API response: missing current conditions") :=
  ⟨(C6_conditions_first_or_protocol_error okCurrentEnv "224758" (by decide) (by decide)
      (by decide)).2 sampleConditions [] rfl,
   (C6_conditions_first_or_protocol_error { okCurrentEnv with body := some [] } "224758"
      (by decide) (by decide) (by decide)).1 (Or.inr rfl)⟩

/-- C7: a timely provider response with a non-success HTTP status makes each
client operation fail with an upstream error carrying the status code and the
body text, or the status text when the body text is empty. -/
theorem C7_non_success_status_upstream_error
    (envG : Upstream (Option String))
    (envC : Upstream (Option (List AccuWeatherCurrentConditions)))
    (envF : Upstream (Option (List AccuWeatherForecast)))
    (lat lon : JSNum) (key : String) (n : ℕ)
    (hlat : latInRange lat = true) (hlon : lonInRange lon = true) (hkey : key ≠ "")
    (h1 : 1 ≤ n) (h15 : n ≤ 15)
    (hGl : envG.latencyMs ≤ 30000) (hGs : statusOk envG.status = false)
    (hCl : envC.latencyMs ≤ 30000) (hCs : statusOk envC.status = false)
    (hFl : envF.latencyMs ≤ 30000) (hFs : statusOk envF.status = false) :
    (getLocationKey envG lat lon).fst = .error (.upstreamError envG.status (errText envG)) ∧
    (getCurrentConditions envC key).fst = .error (.upstreamError envC.status (errText envC)) ∧
    (getForecast envF key (.num (n : ℚ))).fst = .error (.upstreamError envF.status (errText envF)) := by
  refine ⟨?_, ?_, ?_⟩
  · have hc1 := latCheck_false_of_latInRange lat hlat
    have hc2 := lonCheck_false_of_lonInRange lon hlon
    have hnl : ¬ (envG.latencyMs > 30000) := by omega
    simp [getLocationKey, hc1, hc2, hnl, hGs]
  · have hnl : ¬ (envC.latencyMs > 30000) := by omega
    simp [getCurrentConditions, hkey, hnl, hCs]
  · have hd := daysCheck_false_of_natRange n h1 h15
    have hnl : ¬ (envF.latencyMs > 30000) := by omega
    simp [getForecast, hkey, hd, hnl, hFs]

/-- Provider answer with HTTP status 401 for the geoposition search. -/
def unauthorizedGeoEnv : Upstream (Option String) :=
  { latencyMs := 100, status := 401, statusText := "Unauthorized"
  , bodyText := "Api Authorization failed", body := none }

/-- Provider answer with HTTP status 401 and empty body text for the
current-conditions call. -/
def unauthorizedCurrentEnv : Upstream (Option (List AccuWeatherCurrentConditions)) :=
  { latencyMs := 100, status := 401, statusText := "Unauthorized", bodyText := "", body := none }

/-- Provider answer with HTTP status 401 and empty body text for the
daily-forecast call. -/
def unauthorizedForecastEnv : Upstream (Option (List AccuWeatherForecast)) :=
  { latencyMs := 100, status := 401, statusText := "Unauthorized", bodyText := "", body := none }

theorem C7_witness :
    (getLocationKey unauthorizedGeoEnv lat0 lon0).fst =
      .error (.upstreamError 401 "Api Authorization failed") ∧
    (getCurrentConditions unauthorizedCurrentEnv "224758").fst =
      .error (.upstreamError 401 "Unauthorized") ∧
    (getForecast unauthorizedForecastEnv "224758" (.num ((5 : ℕ) : ℚ))).fst =
      .error (.upstreamError 401 "Unauthorized") :=
  C7_non_success_status_upstream_error unauthorizedGeoEnv unauthorizedCurrentEnv
    unauthorizedForecastEnv lat0 lon0 "224758" 5 (by decide) (by decide) (by decide)
    (by decide) (by decide) (by decide) (by decide) (by decide) (by decide)
    (by decide) (by decide)

lemma getForecast_ok_inv (env : Upstream (Option (List AccuWeatherForecast))) (key : String)
    (n : ℕ) (l fc : List AccuWeatherForecast)
    (h1 : 1 ≤ n) (h15 : n ≤ 15) (hb : env.body = some l)
    (hok : (getForecast env key (.num (n : ℚ))).fst = .ok fc) :
    fc = l.take n := by
  by_cases hkey : key = ""
  · simp [getForecast, hkey] at hok
  · have hd := daysCheck_false_of_natRange n h1 h15
    by_cases hl : env.latencyMs > 30000
    · simp [getForecast, hkey, hd, hl] at hok
    · by_cases hs : statusOk env.status = true
      · simp [getForecast, hkey, hd, hl, hs, hb, jsSlice_natCast] at hok
        exact hok.symm
      · rw [Bool.not_eq_true] at hs
        simp [getForecast, hkey, hd, hl, hs] at hok

/-- C1 counterexample: dayCount values violating the integer-in-[1,15]
precondition are not all rejected. NaN fails the precondition but passes the
validation (both JavaScript comparisons with NaN are false), so the request
is issued and an empty slice is returned; likewise the non-integral value 5/2
lies inside [1,15], passes validation, and the request is issued. -/
theorem C1_counterexample :
    JSNum.isInteger .nan = false ∧
    (1 ≤ q52 ∧ q52 ≤ 15 ∧ JSNum.isInteger (.num q52) = false) ∧
    (getForecast (okForecastEnv fiveDayList) "224758" .nan).fst = .ok [] ∧
    (getForecast (okForecastEnv fiveDayList) "224758" .nan).snd =
      [Request.dailyForecast .nan "224758"] ∧
    (getForecast (okForecastEnv fiveDayList) "224758" (.num q52)).fst =
      .ok (fiveDayList.take 2) ∧
    (getForecast (okForecastEnv fiveDayList) "224758" (.num q52)).snd =
      [Request.dailyForecast (.num q52) "224758"] :=
  ⟨rfl, ⟨by decide, by decide, rfl⟩, rfl, rfl, rfl, rfl⟩

/-- C1 amended: for a non-empty locationKey, getForecast fails with the
invalid-argument error and issues no request exactly when days < 1 or
days > 15 under the JavaScript comparison; otherwise (including NaN and
non-integral values inside [1,15]) validation passes and the request is
issued. -/
theorem C1_amended_days_validation (env : Upstream (Option (List AccuWeatherForecast)))
    (key : String) (days : JSNum) (hkey : key ≠ "") :
    ((days.lt (.num 1) || (JSNum.num 15).lt days) = true →
      (getForecast env key days).fst =
        .error (.invalidArgument "Invalid number of days. Must be between 1 and 15.") ∧
      (getForecast env key days).snd = []) ∧
    ((days.lt (.num 1) || (JSNum.num 15).lt days) = false →
      (getForecast env key days).snd = [Request.dailyForecast days key]) := by
  constructor
  · intro h
    constructor <;> simp [getForecast, hkey, h]
  · intro h
    by_cases hl : env.latencyMs > 30000
    · simp [getForecast, hkey, h, hl]
    · by_cases hs : statusOk env.status = true
      · cases hb : env.body with
        | none => simp [getForecast, hkey, h, hl, hs, hb]
        | some l => simp [getForecast, hkey, h, hl, hs, hb]
      · rw [Bool.not_eq_true] at hs
        simp [getForecast, hkey, h, hl, hs]

theorem C1_amended_witness :
    ((JSNum.num (0 : ℚ)).lt (.num 1) || (JSNum.num 15).lt (.num (0 : ℚ))) = true ∧
    (getForecast (okForecastEnv fiveDayList) "224758" (.num 0)).fst =
      .error (.invalidArgument "Invalid number of days. Must be between 1 and 15.") ∧
    (getForecast (okForecastEnv fiveDayList) "224758" (.num 0)).snd = [] :=
  ⟨by decide,
   ((C1_amended_days_validation (okForecastEnv fiveDayList) "224758" (.num 0)
      (by decide)).1 (by decide)).1,
   ((C1_amended_days_validation (okForecastEnv fiveDayList) "224758" (.num 0)
      (by decide)).1 (by decide)).2⟩

/-- Provider answers for a full bundle where only the details call is slow,
far beyond 30 seconds. -/
def slowDetailsFullEnv : FullEnv :=
  { geo := okGeoEnv, current := okCurrentEnv
  , forecast := okForecastEnv fiveDayList, details := okDetailsEnv 1000000 }

/-- C2 counterexample: the location-details call inside getWeatherForecast is
issued without any timeout, so a details response taking far longer than 30
seconds does not surface the timeout error: the bundle still resolves. -/
theorem C2_counterexample :
    slowDetailsFullEnv.details.latencyMs > 30000 ∧
    (getWeatherForecast slowDetailsFullEnv lat0 lon0 (.num 5)).fst ≠
      .error .upstreamTimeout ∧
    (getWeatherForecast slowDetailsFullEnv lat0 lon0 (.num 5)).fst =
      .ok { location := sampleLocation, current := sampleConditions
          , forecast := fiveDayList } := by
  have hval : (getWeatherForecast slowDetailsFullEnv lat0 lon0 (.num 5)).fst =
      .ok { location := sampleLocation, current := sampleConditions
          , forecast := fiveDayList } := rfl
  refine ⟨by decide, ?_, hval⟩
  rw [hval]
  exact fun hc => Except.noConfusion hc

/-- C2 amended: the location-key, current-conditions and forecast calls each
surface the timeout error when the provider takes longer than 30 seconds,
but the location-details fetch of getWeatherForecast carries no timeout: the
result of getWeatherForecast is unchanged under any details-call latency. -/
theorem C2_amended_timeout_discipline
    (envG : Upstream (Option String))
    (envC : Upstream (Option (List AccuWeatherCurrentConditions)))
    (envF : Upstream (Option (List AccuWeatherForecast)))
    (full : FullEnv) (lat lon : JSNum) (key : String) (n : ℕ)
    (hlat : latInRange lat = true) (hlon : lonInRange lon = true) (hkey : key ≠ "")
    (h1 : 1 ≤ n) (h15 : n ≤ 15)
    (hGl : envG.latencyMs > 30000) (hCl : envC.latencyMs > 30000)
    (hFl : envF.latencyMs > 30000) :
    (getLocationKey envG lat lon).fst = .error .upstreamTimeout ∧
    (getCurrentConditions envC key).fst = .error .upstreamTimeout ∧
    (getForecast envF key (.num (n : ℚ))).fst = .error .upstreamTimeout ∧
    (∀ m : ℕ,
      getWeatherForecast { full with details := { full.details with latencyMs := m } }
          lat lon (.num (n : ℚ)) =
        getWeatherForecast full lat lon (.num (n : ℚ))) := by
  refine ⟨?_, ?_, ?_, fun m => rfl⟩
  · have hc1 := latCheck_false_of_latInRange lat hlat
    have hc2 := lonCheck_false_of_lonInRange lon hlon
    simp [getLocationKey, hc1, hc2, hGl]
  · simp [getCurrentConditions, hkey, hCl]
  · have hd := daysCheck_false_of_natRange n h1 h15
    simp [getForecast, hkey, hd, hFl]

theorem C2_amended_witness :
    (getLocationKey { okGeoEnv with latencyMs := 30001 } lat0 lon0).fst =
      .error .upstreamTimeout ∧
    (getCurrentConditions { okCurrentEnv with latencyMs := 30001 } "224758").fst =
      .error .upstreamTimeout ∧
    (getForecast { okForecastEnv fiveDayList with latencyMs := 30001 } "224758"
        (.num ((5 : ℕ) : ℚ))).fst = .error .upstreamTimeout ∧
    (∀ m : ℕ,
      getWeatherForecast
          { slowDetailsFullEnv with
              details := { slowDetailsFullEnv.details with latencyMs := m } }
          lat0 lon0 (.num ((5 : ℕ) : ℚ)) =
        getWeatherForecast slowDetailsFullEnv lat0 lon0 (.num ((5 : ℕ) : ℚ))) :=
  C2_amended_timeout_discipline { okGeoEnv with latencyMs := 30001 }
    { okCurrentEnv with latencyMs := 30001 }
    { okForecastEnv fiveDayList with latencyMs := 30001 }
    slowDetailsFullEnv lat0 lon0 "224758" 5 (by decide) (by decide) (by decide)
    (by decide) (by decide) (by decide) (by decide) (by decide)

/-- Provider answers for the scenario of the specification: healthy calls,
5-day forecast, 1-element conditions array. -/
def okFullEnv : FullEnv :=
  { geo := okGeoEnv, current := okCurrentEnv
  , forecast := okForecastEnv fiveDayList, details := okDetailsEnv 150 }

/-- The bundle getWeatherForecast resolves to in the healthy scenario. -/
def sampleBundle5 : ForecastBundle :=
  { location := sampleLocation, current := sampleConditions, forecast := fiveDayList }

/-- Provider answers where the forecast call succeeds with only 3 entries. -/
def shortFullEnv : FullEnv :=
  { geo := okGeoEnv, current := okCurrentEnv
  , forecast := okForecastEnv (fiveDayList.take 3), details := okDetailsEnv 150 }

/-- C3 counterexample: a successful getWeatherForecast with requested day
count 5 whose provider forecast response has only 3 entries resolves with a
forecast of length 3, not exactly 5. -/
theorem C3_counterexample :
    (getWeatherForecast shortFullEnv lat0 lon0 (.num 5)).fst =
      .ok { location := sampleLocation, current := sampleConditions
          , forecast := fiveDayList.take 3 } ∧
    (fiveDayList.take 3).length = 3 ∧ (3 : ℕ) ≠ 5 :=
  ⟨rfl, rfl, by decide⟩

/-- C3 amended: a successful getWeatherForecast with integral requested day
count n in [1,15] returns the first min n (provider count) entries of the
provider DailyForecasts list, in provider order; the length is exactly n
whenever the provider returned at least n entries. -/
theorem C3_amended_bundle_forecast_length (env : FullEnv) (lat lon : JSNum) (n : ℕ)
    (l : List AccuWeatherForecast) (b : ForecastBundle)
    (h1 : 1 ≤ n) (h15 : n ≤ 15) (hb : env.forecast.body = some l)
    (hok : (getWeatherForecast env lat lon (.num (n : ℚ))).fst = .ok b) :
    b.forecast = l.take n ∧ b.forecast.length = min n l.length ∧
    (n ≤ l.length → b.forecast.length = n) := by
  have hfc : b.forecast = l.take n := by
    simp only [getWeatherForecast] at hok
    cases hG : (getLocationKey env.geo lat lon).fst with
    | error e => rw [hG] at hok; simp at hok
    | ok key =>
        rw [hG] at hok
        simp only [] at hok
        cases hC : (getCurrentConditions env.current key).fst with
        | error e => rw [hC] at hok; simp at hok
        | ok cur =>
            rw [hC] at hok
            cases hF : (getForecast env.forecast key (.num (n : ℚ))).fst with
            | error e => rw [hF] at hok; simp at hok
            | ok fc =>
                rw [hF] at hok
                by_cases hs : statusOk env.details.status = true
                · rw [hs] at hok
                  simp at hok
                  rw [← hok]
                  exact getForecast_ok_inv env.forecast key n l fc h1 h15 hb hF
                · rw [Bool.not_eq_true] at hs
                  rw [hs] at hok
                  simp at hok
  refine ⟨hfc, ?_, ?_⟩
  · rw [hfc]
    simp [List.length_take, Nat.min_comm]
  · intro hle
    rw [hfc]
    simp [List.length_take]
    omega

theorem C3_amended_witness :
    sampleBundle5.forecast = fiveDayList.take 5 ∧
    sampleBundle5.forecast.length = min 5 fiveDayList.length ∧
    (5 ≤ fiveDayList.length → sampleBundle5.forecast.length = 5) :=
  C3_amended_bundle_forecast_length okFullEnv lat0 lon0 5 fiveDayList sampleBundle5
    (by decide) (by decide) rfl rfl

/-- C8 counterexample: a conditions value with PrecipitationType present but
equal to the empty string is shaped to the literal none string rather than
carrying the present value, because the JavaScript or-default treats the
empty string as falsy. -/
theorem C8_counterexample :
    ({ sampleConditions with precipitationType := some "" } :
        AccuWeatherCurrentConditions).precipitationType = some "" ∧
    (shapeCurrentConditionsResponse lat0 lon0
        { sampleConditions with precipitationType := some "" }).current.precipitationType =
      "none" ∧
    ("none" : String) ≠ "" :=
  ⟨rfl, rfl, by decide⟩

/-- C8 amended: shapeCurrentConditionsResponse sets precipitation_type to the
literal none string when PrecipitationType is absent or is the empty string,
and carries the value whenever PrecipitationType is present and non-empty. -/
theorem C8_amended_precipitation_default (lat lon : JSNum)
    (c : AccuWeatherCurrentConditions) :
    (c.precipitationType = none →
      (shapeCurrentConditionsResponse lat lon c).current.precipitationType = "none") ∧
    (∀ str : String, c.precipitationType = some str → str ≠ "" →
      (shapeCurrentConditionsResponse lat lon c).current.precipitationType = str) ∧
    (c.precipitationType = some "" →
      (shapeCurrentConditionsResponse lat lon c).current.precipitationType = "none") := by
  refine ⟨?_, ?_, ?_⟩
  · intro h
    simp [shapeCurrentConditionsResponse, jsStringOrDefault, h]
  · intro str h hne
    simp [shapeCurrentConditionsResponse, jsStringOrDefault, h, hne]
  · intro h
    simp [shapeCurrentConditionsResponse, jsStringOrDefault, h]

theorem C8_amended_witness :
    (shapeCurrentConditionsResponse lat0 lon0 sampleConditions).current.precipitationType =
      "none" ∧
    (shapeCurrentConditionsResponse lat0 lon0
        { sampleConditions with precipitationType := some "Rain" }).current.precipitationType =
      "Rain" :=
  ⟨(C8_amended_precipitation_default lat0 lon0 sampleConditions).1 rfl,
   (C8_amended_precipitation_default lat0 lon0
      { sampleConditions with precipitationType := some "Rain" }).2.1 "Rain" rfl (by decide)⟩

/-- C9: for a bundle with a non-empty forecast, the shaping succeeds, each
shaped date is the calendar-date portion of the corresponding ISO date-time
string (the part before the first T), and period.start_date and
period.end_date are the shaped dates of the first and last forecast
entries. -/
theorem C9_forecast_shaping_dates (lat lon days : JSNum) (b : ForecastBundle)
    (hne : b.forecast ≠ []) :
    ∃ r, shapeForecastResponse lat lon days b = some r ∧
      r.forecast = b.forecast.map shapeForecastEntry ∧
      (∀ e ∈ b.forecast, ∀ d t : String, e.date = d ++ "T" ++ t → 'T' ∉ d.data →
        (shapeForecastEntry e).date = d) ∧
      r.period.startDate = (shapeForecastEntry (b.forecast.head hne)).date ∧
      r.period.endDate = (shapeForecastEntry (b.forecast.getLast hne)).date := by
  have hne2 : b.forecast.map shapeForecastEntry ≠ [] := by simpa using hne
  simp only [shapeForecastResponse]
  rw [dif_neg hne2]
  refine ⟨_, rfl, rfl, ?_, ?_, ?_⟩
  · intro e _ d t hdt hT
    simp only [shapeForecastEntry, hdt]
    exact dateOnly_strips_time d t hT
  · exact congrArg ShapedForecastEntry.date (List.head_map shapeForecastEntry b.forecast hne2)
  · exact congrArg ShapedForecastEntry.date (List.getLast_map shapeForecastEntry b.forecast hne2)

/-- The bundle of the shaping scenario, first forecast date
2025-11-05T00:00:00. -/
def specBundle : ForecastBundle :=
  { location := sampleLocation, current := sampleConditions
  , forecast := [sampleEntry "2025-11-05T00:00:00", sampleEntry "2025-11-06T00:00:00"] }

theorem C9_witness :
    ∃ r, shapeForecastResponse lat0 lon0 (.num 2) specBundle = some r ∧
      r.period.startDate = "2025-11-05" ∧ r.period.endDate = "2025-11-06" := by
  obtain ⟨r, hr, -, -, hs, he⟩ :=
    C9_forecast_shaping_dates lat0 lon0 (.num 2) specBundle (by decide)
  refine ⟨r, hr, ?_, ?_⟩
  · rw [hs]; decide
  · rw [he]; decide

/-- Provider answers where every call is healthy but the DailyForecasts array
is empty. -/
def emptyForecastFullEnv : FullEnv :=
  { geo := okGeoEnv, current := okCurrentEnv
  , forecast := okForecastEnv [], details := okDetailsEnv 150 }

/-- The bundle getWeatherForecast resolves to on an empty forecast array. -/
def emptyForecastBundle : ForecastBundle :=
  { location := sampleLocation, current := sampleConditions, forecast := [] }

/-- C10: an HTTP-success provider response with DailyForecasts present but
empty makes getForecast return the empty list with no error (in particular no
protocol error), getWeatherForecast resolve to a bundle with an empty
forecast, and the forecast shaping of that bundle is undefined (none, the
model of the element access on an empty array): shaping yields an output
exactly when the forecast sequence is non-empty, an unstated precondition. -/
theorem C10_empty_forecast_breaks_shaping :
    (getForecast (okForecastEnv []) "224758" (.num 5)).fst = .ok [] ∧
    (getWeatherForecast emptyForecastFullEnv lat0 lon0 (.num 5)).fst =
      .ok emptyForecastBundle ∧
    shapeForecastResponse lat0 lon0 (.num 5) emptyForecastBundle = none ∧
    (∀ lat lon days : JSNum, ∀ b : ForecastBundle,
      shapeForecastResponse lat lon days b = none ↔ b.forecast = []) := by
  refine ⟨rfl, rfl, rfl, ?_⟩
  intro lat lon days b
  constructor
  · intro h
    by_contra hne
    have hne2 : b.forecast.map shapeForecastEntry ≠ [] := by simpa using hne
    simp only [shapeForecastResponse] at h
    rw [dif_neg hne2] at h
    cases h
  · intro h
    simp [shapeForecastResponse, h]
